import Mathlib

/-!
Verification of the dual-account hedge grid trading engine (GirdBot_HB).

Shallow embedding of the Python sources:
  * `data_models.py`   — `TrackedOrder`, `GridLevel`, the level state machine;
  * `grid_executor.py` — level re-derivation, order decision lists, the
    placement loop, activation-bound filtering, cancellation, ladder builder;
  * `config.py`        — `validate_config`;
  * `binance_connector.py` — quantization and `place_order` pre-checks.

Python `Decimal` values are modelled as `ℚ` (exact decimal arithmetic embeds
into the rationals); float round-trips in the ladder builder are modelled by
exact rational arithmetic.  Exchange status strings are `String`s, upper-cased
with `Char.toUpper` the way Python's `str.upper` acts on ASCII payloads.
-/

namespace GirdBot

/-- ASCII upper-casing, modelling Python `str.upper()` on exchange status
strings (all of which are ASCII). -/
def pyUpper (s : String) : String := String.mk (s.data.map Char.toUpper)

/-- Truncating division `x // 1` toward zero, the rounding Python `Decimal`
floor-division uses.  `pyTrunc (a / b)` models `a // b` for decimals. -/
def pyTrunc (x : ℚ) : ℤ := if 0 ≤ x then ⌊x⌋ else ⌈x⌉

/-- Python `int(x)` for a nonnegative real argument: truncation toward zero. -/
def pyInt (x : ℚ) : ℤ := pyTrunc x

-- ======================================================================
-- data_models.py
-- ======================================================================

/-- `data_models.GridLevelStates`. -/
inductive GridLevelStates where
  | NOT_ACTIVE
  | OPEN_ORDER_PLACED
  | OPEN_ORDER_FILLED
  | CLOSE_ORDER_PLACED
  | COMPLETE
  deriving DecidableEq, Repr

/-- `data_models.TradeType` (BUY = long grid, SELL = short grid). -/
inductive TradeType where
  | BUY
  | SELL
  deriving DecidableEq, Repr

/-- `data_models.TrackedOrder`: the executor's mirror of one exchange order.
`raw_status` models `raw_info['status']` (only the status key is consulted
outside logging). -/
structure TrackedOrder where
  order_id : Option String := none
  client_order_id : Option String := none
  price : ℚ := 0
  amount : ℚ := 0
  is_done : Bool := false
  is_filled : Bool := false
  executed_amount_base : ℚ := 0
  executed_amount_quote : ℚ := 0
  cum_fees_quote : ℚ := 0
  raw_status : String := ""
  deriving DecidableEq, Repr

/-- A numeric JSON field of an order payload, keeping track of Python
truthiness because the source guards each write with `if filled_qty:` /
`if filled_quote:` (`data_models.py` 157–160):

* `absent` — key missing; `dict.get` returns the default string `'0'`,
  which is truthy, so the write happens and stores `0`;
* `str v` — the venue delivered the number as a (non-empty) string, as
  Binance does on the event stream; any non-empty string is truthy, so
  the write always happens (also for `"0"`);
* `num v` — the number arrived as a float/int (the ccxt REST shape);
  `0.0` is falsy and the stored value is kept, any other value is
  written. -/
inductive PyNum where
  | absent
  | str (v : ℚ)
  | num (v : ℚ)
  deriving DecidableEq, Repr

/-- Python truthiness of the field as read with default `'0'`. -/
def PyNum.isTruthy : PyNum → Bool
  | .absent => true
  | .str _ => true
  | .num v => decide (v ≠ 0)

/-- The decimal value the field converts to when written
(`Decimal(str(...))`). -/
def PyNum.value : PyNum → ℚ
  | .absent => 0
  | .str v => v
  | .num v => v

/-- One exchange order-status payload, in either of the two shapes
`TrackedOrder.update_from_exchange_data` accepts.

* `ws` — WebSocket `ORDER_TRADE_UPDATE` shape (detected by the `'X'` key):
  `X` status, `z` cumulative filled base, `Z` cumulative filled quote,
  `c` client id, optional `fee.cost`.
* `rest` — REST shape: `status`, `filled`, `cost`, `clientOrderId`,
  optional `fee.cost`.

The cumulative-amount fields are `PyNum`s so that the source's truthiness
guards are modelled exactly; `feeCost` is `some c` when the payload holds
a truthy `fee` block with a `cost` key (the cost itself is written without
a further truthiness check). -/
inductive OrderData where
  | ws (x : String) (z : PyNum) (zQuote : PyNum) (c : String)
      (feeCost : Option ℚ)
  | rest (status : String) (filled : PyNum) (cost : PyNum)
      (clientOrderId : String) (feeCost : Option ℚ)
  deriving DecidableEq, Repr

/-- The upper-cased status string carried by a payload (`'UNKNOWN'` defaults
never arise here because the constructors carry the field explicitly). -/
def OrderData.statusOf : OrderData → String
  | .ws x _ _ _ _ => pyUpper x
  | .rest s _ _ _ _ => pyUpper s

def OrderData.filledQty : OrderData → PyNum
  | .ws _ z _ _ _ => z
  | .rest _ f _ _ _ => f

def OrderData.filledQuote : OrderData → PyNum
  | .ws _ _ zq _ _ => zq
  | .rest _ _ c _ _ => c

def OrderData.clientId : OrderData → String
  | .ws _ _ _ c _ => c
  | .rest _ _ _ c _ => c

def OrderData.feeCost : OrderData → Option ℚ
  | .ws _ _ _ _ f => f
  | .rest _ _ _ _ f => f

/-- The status sets hard-coded in `update_from_exchange_data`
(`data_models.py` lines 149–150). -/
def filledStatuses : List String := ["CLOSED", "FILLED"]

def doneStatuses : List String := ["CLOSED", "FILLED", "CANCELED", "EXPIRED"]

/-- `TrackedOrder.update_from_exchange_data` (`data_models.py` 132–174),
restricted to the non-raising path (the Python body returns `False` only if
an exception escapes `Decimal` conversion, which cannot happen for the typed
payloads modelled here).  Field by field:

* `is_filled := status ∈ ['CLOSED', 'FILLED']`;
* `is_done   := status ∈ ['CLOSED', 'FILLED', 'CANCELED', 'EXPIRED']`
  (note: `'REJECTED'` is *not* in the list);
* client id is set only when the payload carries a non-empty id and none is
  stored yet;
* each cumulative amount is overwritten only when the payload field is
  truthy (`if filled_qty:` / `if filled_quote:`): an absent key defaults to
  the truthy string `'0'` and stores `0`, a present falsy number (float
  `0.0`) keeps the stored value;
* `cum_fees_quote` is overwritten only when a `fee.cost` entry is present. -/
def TrackedOrder.update_from_exchange_data (o : TrackedOrder) (d : OrderData) :
    TrackedOrder :=
  let status := d.statusOf
  { o with
    is_filled := status ∈ filledStatuses
    is_done := status ∈ doneStatuses
    client_order_id :=
      if d.clientId ≠ "" ∧ (o.client_order_id = none ∨ o.client_order_id = some "")
      then some d.clientId else o.client_order_id
    executed_amount_base :=
      if (d.filledQty).isTruthy then (d.filledQty).value
      else o.executed_amount_base
    executed_amount_quote :=
      if (d.filledQuote).isTruthy then (d.filledQuote).value
      else o.executed_amount_quote
    cum_fees_quote := match d.feeCost with
      | some f => f
      | none => o.cum_fees_quote
    raw_status := status }

/-- `data_models.GridLevel`: one rung of the ladder with its two order
slots and derived state. -/
structure GridLevel where
  id : String
  price : ℚ
  amount_quote : ℚ
  side : TradeType
  take_profit_pct : ℚ
  active_open_order : Option TrackedOrder := none
  active_close_order : Option TrackedOrder := none
  state : GridLevelStates := .NOT_ACTIVE
  deriving DecidableEq, Repr

/-- `GridLevel.update_state` (`data_models.py` 212–250): re-derive the level
state from the two slots.  Branch order mirrors the source exactly: the
`is_done` test precedes the `is_filled` test on each slot. -/
def GridLevel.update_state (l : GridLevel) : GridLevel :=
  { l with state :=
      match l.active_open_order with
      | none => .NOT_ACTIVE
      | some o =>
        if ¬ o.is_done then .OPEN_ORDER_PLACED
        else if o.is_filled then
          match l.active_close_order with
          | none => .OPEN_ORDER_FILLED
          | some c =>
            if ¬ c.is_done then .CLOSE_ORDER_PLACED
            else if c.is_filled then .COMPLETE
            else .OPEN_ORDER_FILLED
        else .NOT_ACTIVE }

/-- `GridLevel.reset_open_order` (`data_models.py` 252–255). -/
def GridLevel.reset_open_order (l : GridLevel) : GridLevel :=
  { l with active_open_order := none, state := .NOT_ACTIVE }

/-- `GridLevel.reset_close_order` (`data_models.py` 257–260). -/
def GridLevel.reset_close_order (l : GridLevel) : GridLevel :=
  { l with active_close_order := none, state := .OPEN_ORDER_FILLED }

/-- `GridLevel.reset_level` (`data_models.py` 262–266). -/
def GridLevel.reset_level (l : GridLevel) : GridLevel :=
  { l with active_open_order := none, active_close_order := none,
           state := .NOT_ACTIVE }

-- ======================================================================
-- grid_executor.py : per-level part of update_grid_levels
-- ======================================================================

/-- Truthiness-plus-`is_filled` test on an order slot, as in the Python
conjunction `level.active_open_order and level.active_open_order.is_filled`. -/
def slotFilled : Option TrackedOrder → Bool
  | some o => o.is_filled
  | none => false

/-- A slot holding a done-but-unfilled order (the failed-order test of
`_handle_failed_orders`). -/
def slotFailed : Option TrackedOrder → Bool
  | some o => o.is_done && !o.is_filled
  | none => false

/-- A slot holding a done-and-filled order. -/
def slotDoneFilled : Option TrackedOrder → Bool
  | some o => o.is_done && o.is_filled
  | none => false

/-- The completed-level pass of `GridExecutor.update_grid_levels`
(`grid_executor.py` 289–313): a level bucketed `COMPLETE` whose two orders
are both present and filled is reset for reuse. -/
def completeResetStep (l : GridLevel) : GridLevel :=
  if l.state = .COMPLETE ∧ slotFilled l.active_open_order = true ∧
      slotFilled l.active_close_order = true
  then l.reset_level else l

/-- `GridExecutor._handle_failed_orders` (`grid_executor.py` 318–345),
per level: clear a done-but-unfilled open slot, then (on the resulting
level) clear a done-but-unfilled close slot. -/
def handleFailedStep (l : GridLevel) : GridLevel :=
  let l1 := if slotFailed l.active_open_order then l.reset_open_order else l
  if slotFailed l1.active_close_order then l1.reset_close_order else l1

/-- The per-level pure content of one run of
`GridExecutor.update_grid_levels` (`grid_executor.py` 271–316), after the
order slots have been refreshed from the exchange: re-derive the state,
reset completed levels, then clear failed slots. -/
def updateGridLevelsStep (l : GridLevel) : GridLevel :=
  handleFailedStep (completeResetStep l.update_state)

/-- Modelled from the spec: the §4.3 state table, as the specification (and
claim C1) states it, applied to the two order slots.  To be compared with
the state the code leaves behind. -/
def specStateTable (openSlot closeSlot : Option TrackedOrder) :
    GridLevelStates :=
  match openSlot with
  | none => .NOT_ACTIVE
  | some o =>
    if ¬ o.is_done then .OPEN_ORDER_PLACED
    else if o.is_filled then
      match closeSlot with
      | none => .OPEN_ORDER_FILLED
      | some c =>
        if ¬ c.is_done then .CLOSE_ORDER_PLACED
        else if c.is_filled then .COMPLETE
        else .OPEN_ORDER_FILLED
    else .NOT_ACTIVE

-- ======================================================================
-- grid_executor.py : configuration, decision lists, placement loop
-- ======================================================================

/-- The fields of `data_models.GridExecutorConfig` the control loop reads. -/
structure GridExecutorConfig where
  side : TradeType
  start_price : ℚ
  end_price : ℚ
  total_amount_quote : ℚ
  max_open_orders : ℕ
  min_spread_between_orders : ℚ
  min_order_amount_quote : ℚ
  order_frequency : ℚ
  activation_bounds : Option ℚ
  safe_extra_spread : ℚ
  take_profit_pct : ℚ
  deriving Repr

/-- The executor state the open-order path touches: the level list and
`max_open_creation_timestamp` (0 at startup). -/
structure ExecState where
  levels : List GridLevel
  max_open_creation_timestamp : ℚ
  deriving Repr

/-- `len([l for l in self.grid_levels if l.state == OPEN_ORDER_PLACED])`,
the capacity recount of `control_task` (`grid_executor.py` 237–238). -/
def countOpenPlaced (levels : List GridLevel) : ℕ :=
  (levels.filter (fun l => l.state = .OPEN_ORDER_PLACED)).length

/-- `GridExecutor._filter_levels_by_activation_bounds`
(`grid_executor.py` 509–528).  The Python guard is the truthiness test
`if self.config.activation_bounds:`, so `None` *and* `Decimal("0")` both
skip the filtering; otherwise the test is one-sided: a long grid keeps
NOT_ACTIVE levels with `price ≥ mid × (1 − b)`, a short grid those with
`price ≤ mid × (1 + b)`. -/
def filterLevelsByActivationBounds (cfg : GridExecutorConfig) (mid : ℚ)
    (notActiveLevels : List GridLevel) : List GridLevel :=
  match cfg.activation_bounds with
  | none => notActiveLevels
  | some b =>
    if b = 0 then notActiveLevels
    else if cfg.side = .BUY then
      notActiveLevels.filter (fun l => mid * (1 - b) ≤ l.price)
    else
      notActiveLevels.filter (fun l => l.price ≤ mid * (1 + b))

/-- Stable insertion into an ascending-by-key list: the new element goes
after every element of equal key, as Python's stable `sorted` arranges. -/
def insertAscBy {α : Type} (key : α → ℚ) (a : α) : List α → List α
  | [] => [a]
  | b :: t => if key a < key b then a :: b :: t else b :: insertAscBy key a t

/-- `GridExecutor._sort_levels_by_proximity` (`grid_executor.py` 544–547):
Python's stable `sorted` by key, modelled by stable insertion sort (any two
stable sorts agree on a total preorder of keys). -/
def sortAscBy {α : Type} (key : α → ℚ) (l : List α) : List α :=
  l.foldl (fun acc a => insertAscBy key a acc) []

/-- `GridExecutor.get_open_orders_to_create` (`grid_executor.py` 419–441),
producing indices into the level list (Python iterates the level objects;
indices model object identity).  Suppressed entirely when the last open
placement is within `order_frequency` seconds or the capacity is full;
otherwise NOT_ACTIVE levels are filtered by activation bounds, sorted by
proximity to mid, and capped at the remaining capacity. -/
def openOrdersToCreate (cfg : GridExecutorConfig) (now mid : ℚ)
    (s : ExecState) : List ℕ :=
  let nOpen := countOpenPlaced s.levels
  if now - cfg.order_frequency < s.max_open_creation_timestamp ∨
      cfg.max_open_orders ≤ nOpen then []
  else
    let idxs := (List.range s.levels.length).filter fun i =>
      match s.levels.get? i with
      | some l => decide (l.state = .NOT_ACTIVE) &&
          decide (l ∈ filterLevelsByActivationBounds cfg mid
            (s.levels.filter (fun lv => lv.state = .NOT_ACTIVE)))
      | none => false
    let key : ℕ → ℚ := fun k =>
      match s.levels.get? k with
      | some l => |l.price - mid|
      | none => 0
    (sortAscBy key idxs).take (cfg.max_open_orders - nOpen)

/-- The level mutation of a successful `adjust_and_place_open_order`
(`grid_executor.py` 551–592): attach a fresh `TrackedOrder` (amount
`amount_quote / price`, no fills) and set the state to OPEN_ORDER_PLACED. -/
def placedOpenLevel (oid : String) (l : GridLevel) : GridLevel :=
  { l with
    active_open_order := some { order_id := some oid, price := l.price,
                                amount := l.amount_quote / l.price }
    state := .OPEN_ORDER_PLACED }

/-- One successful placement at index `i`, also refreshing
`max_open_creation_timestamp` to the current time. -/
def placeOpenOrderAt (oid : String) (i : ℕ) (now : ℚ) (s : ExecState) :
    ExecState :=
  match s.levels.get? i with
  | none => s
  | some l => { levels := s.levels.set i (placedOpenLevel oid l),
                max_open_creation_timestamp := now }

/-- The open-order placement loop of `control_task`
(`grid_executor.py` 235–244): before *each* placement the count of
OPEN_ORDER_PLACED levels is recomputed and the loop breaks once it reaches
`max_open_orders`.  `ok k` tells whether the venue accepts the `k`-th
attempt (`place_order` returning `None` leaves the level untouched);
`oids k` is the venue id it assigns. -/
def placeOpenLoop (maxOpen : ℕ) (now : ℚ) (ok : ℕ → Bool) (oids : ℕ → String) :
    List ℕ → ℕ → ExecState → ExecState
  | [], _, s => s
  | i :: rest, k, s =>
    if maxOpen ≤ countOpenPlaced s.levels then s
    else
      let s1 := if ok k then placeOpenOrderAt (oids k) i now s else s
      placeOpenLoop maxOpen now ok oids rest (k + 1) s1

/-- One tick's open-order activity: decide the candidate list, then run the
placement loop over it. -/
def tickOpenPlacements (cfg : GridExecutorConfig) (now mid : ℚ)
    (ok : ℕ → Bool) (oids : ℕ → String) (s : ExecState) : ExecState :=
  placeOpenLoop cfg.max_open_orders now ok oids
    (openOrdersToCreate cfg now mid s) 0 s

-- ======================================================================
-- grid_executor.py : cancel path
-- ======================================================================

/-- Python truthiness-plus-id test
`level.active_open_order and level.active_open_order.order_id == order_id`. -/
def openIdMatches (oid : String) (l : GridLevel) : Bool :=
  match l.active_open_order with
  | some o => o.order_id = some oid
  | none => false

def closeIdMatches (oid : String) (l : GridLevel) : Bool :=
  match l.active_close_order with
  | some c => c.order_id = some oid
  | none => false

/-- The level-list mutation of `GridExecutor.cancel_order`
(`grid_executor.py` 694–713) after the venue acknowledges the cancel: the
*first* level whose open slot carries the id is `reset_open_order`-ed
(slot cleared, state NOT_ACTIVE); failing that, the first whose close slot
carries it is `reset_close_order`-ed; the loop breaks at the first match. -/
def cancelOrderUpdate (oid : String) : List GridLevel → List GridLevel
  | [] => []
  | l :: rest =>
    if openIdMatches oid l then l.reset_open_order :: rest
    else if closeIdMatches oid l then l.reset_close_order :: rest
    else l :: cancelOrderUpdate oid rest

/-- `GridExecutor.cancel_order`: on venue success the slots are updated
immediately; on failure (or exception) the levels are left unchanged. -/
def cancelOrderStep (success : Bool) (oid : String)
    (levels : List GridLevel) : List GridLevel :=
  if success then cancelOrderUpdate oid levels else levels

-- ======================================================================
-- config.py : validate_config
-- ======================================================================

/-- The fields of `config.py` that `validate_config` reads (API credentials
of both accounts plus the grid parameters it checks), together with
`take_profit_pct`, which claim C9 says is also checked. -/
structure GlobalConfig where
  account_a_api_key : String
  account_a_api_secret : String
  account_b_api_key : String
  account_b_api_secret : String
  start_price : ℚ
  end_price : ℚ
  total_amount_quote : ℚ
  max_open_orders : ℤ
  take_profit_pct : ℚ
  deriving Repr

/-- `config.validate_config` (`config.py` 113–132): `true` models the
function returning `True`, `false` models it raising `ValueError`.  The
checks, in source order: both accounts' credentials non-empty,
`start_price < end_price`, `total_amount_quote > 0`,
`max_open_orders > 0`.  No other field is inspected. -/
def validate_config (c : GlobalConfig) : Bool :=
  !(c.account_a_api_key = "") && !(c.account_a_api_secret = "") &&
  !(c.account_b_api_key = "") && !(c.account_b_api_secret = "") &&
  !(c.end_price ≤ c.start_price) &&
  (0 < c.total_amount_quote : Bool) &&
  decide ((0 : ℤ) < c.max_open_orders)

-- ======================================================================
-- binance_connector.py : trading rules, quantization, place_order
-- ======================================================================

/-- `data_models.TradingRule`. -/
structure TradingRule where
  min_price_increment : ℚ
  min_base_amount_increment : ℚ
  min_notional_size : ℚ
  min_order_size : ℚ
  deriving Repr

/-- `BinanceConnector._quantize_price` (`binance_connector.py` 819–825):
`(price // increment) * increment` with `Decimal` floor-division, which
truncates the quotient toward zero. -/
def quantize_price (minPriceIncrement p : ℚ) : ℚ :=
  (pyTrunc (p / minPriceIncrement) : ℚ) * minPriceIncrement

/-- `BinanceConnector._quantize_amount` (`binance_connector.py` 827–830). -/
def quantize_amount (minBaseIncrement a : ℚ) : ℚ :=
  (pyTrunc (a / minBaseIncrement) : ℚ) * minBaseIncrement

/-- The pre-venue part of `BinanceConnector.place_order`
(`binance_connector.py` 629–691) for a limit order with a real price:
quantize price and amount, lift an undersized amount to exactly
`min_order_size`, then reject (return `none`, never contacting the venue)
iff the notional `amount × price` is below `min_notional_size`; otherwise
the returned value is the base amount submitted to the venue. -/
def place_order_preVenue (rules : TradingRule) (amount price : ℚ) : Option ℚ :=
  let p := quantize_price rules.min_price_increment price
  let a1 := quantize_amount rules.min_base_amount_increment amount
  let a2 := if a1 < rules.min_order_size then rules.min_order_size else a1
  if a2 * p < rules.min_notional_size then none else some a2

-- ======================================================================
-- grid_executor.py : ladder builder (_generate_grid_levels)
-- ======================================================================

/-- `GridExecutor._linear_distribution` (`grid_executor.py` 205–211). -/
def linear_distribution (n : ℕ) (start stop : ℚ) : List ℚ :=
  if n = 1 then [(start + stop) / 2]
  else
    let step := (stop - start) / ((n : ℚ) - 1)
    (List.range n).map fun i : ℕ => start + (i : ℚ) * step

/-- The effective per-level minimum, `_generate_grid_levels` lines 115–132:
`min_notional = max(min_order_amount_quote, rules.min_notional_size)`, a 5%
margin, a ceiling against the notional in base units, then ceiling
quantization to `min_base_amount_increment`. -/
def ladderMinBaseAmount (cfg : GridExecutorConfig) (rules : TradingRule)
    (price : ℚ) : ℚ :=
  let min_notional := max cfg.min_order_amount_quote rules.min_notional_size
  let inc := rules.min_base_amount_increment
  let min_notional_with_margin := min_notional * (105 / 100)
  let min_base_amount := max (min_notional_with_margin / price)
    (inc * (⌈min_notional / (inc * price)⌉ : ℚ))
  (⌈min_base_amount / inc⌉ : ℚ) * inc

/-- `min_quote_amount = min_base_amount * price` (line 135). -/
def ladderMinQuoteAmount (cfg : GridExecutorConfig) (rules : TradingRule)
    (price : ℚ) : ℚ :=
  ladderMinBaseAmount cfg rules price * price

/-- `grid_range = (end_price - start_price) / start_price` (line 138). -/
def ladderGridRange (cfg : GridExecutorConfig) : ℚ :=
  (cfg.end_price - cfg.start_price) / cfg.start_price

/-- `min_step_size` (lines 139–142). -/
def ladderMinStep (cfg : GridExecutorConfig) (rules : TradingRule)
    (price : ℚ) : ℚ :=
  max cfg.min_spread_between_orders (rules.min_price_increment / price)

/-- The level-count / per-level-quote computation of
`_generate_grid_levels` (lines 144–168).  Returns `none` where the Python
raises: the `total / (price * n_levels)` division by zero hit when
`max_possible_levels ≥ 1` but `min(max_possible_levels,
max_levels_by_step) = 0`.  Otherwise returns the final
`(n_levels, quote_amount_per_level)` with `n_levels ≥ 1` applied last, as
in the source. -/
def ladderCore (cfg : GridExecutorConfig) (rules : TradingRule) (price : ℚ) :
    Option (ℤ × ℚ) :=
  let inc := rules.min_base_amount_increment
  let min_base_amount := ladderMinBaseAmount cfg rules price
  let min_quote_amount := ladderMinQuoteAmount cfg rules price
  let max_possible_levels := pyInt (cfg.total_amount_quote / min_quote_amount)
  if max_possible_levels = 0 then
    some (1, min_quote_amount)
  else
    let max_levels_by_step := pyInt (ladderGridRange cfg / ladderMinStep cfg rules price)
    let n1 := min max_possible_levels max_levels_by_step
    if n1 = 0 then none
    else
      let base_amount_per_level := max min_base_amount
        ((⌊cfg.total_amount_quote / (price * (n1 : ℚ)) / inc⌋ : ℚ) * inc)
      let quote_amount_per_level := base_amount_per_level * price
      let n2 := min n1 (pyInt (cfg.total_amount_quote / quote_amount_per_level))
      some (max 1 n2, quote_amount_per_level)

/-- A built ladder: the level list and the fractional step
(`GridExecutor.step`). -/
structure LadderResult where
  levels : List GridLevel
  step : ℚ
  deriving Repr

/-- Lines 170–194 of `_generate_grid_levels`: price the `n` levels
(linearly spaced for `n > 1`, the range midpoint for `n = 1`) and build one
`GridLevel` per price, all sharing `quote_amount_per_level`. -/
def buildLadder (cfg : GridExecutorConfig) (n : ℤ) (quotePer : ℚ) :
    LadderResult :=
  let prices := if 1 < n then
      linear_distribution n.toNat cfg.start_price cfg.end_price
    else [(cfg.start_price + cfg.end_price) / 2]
  { levels := prices.enum.map fun ip =>
      { id := "L" ++ toString ip.1, price := ip.2, amount_quote := quotePer,
        side := cfg.side, take_profit_pct := cfg.take_profit_pct }
    step := if 1 < n then ladderGridRange cfg / ((n : ℚ) - 1)
            else ladderGridRange cfg }

/-- `GridExecutor._generate_grid_levels` (`grid_executor.py` 103–203):
`none` models a raised exception (invalid mid-price, or the division by
zero described at `ladderCore`). -/
def generate_grid_levels (cfg : GridExecutorConfig) (rules : TradingRule)
    (price : ℚ) : Option LadderResult :=
  if price ≤ 0 then none
  else
    match ladderCore cfg rules price with
    | none => none
    | some (n, quotePer) => some (buildLadder cfg n quotePer)

-- ======================================================================
-- Spec-side definitions (refinement targets, modelled from the spec text)
-- ======================================================================

/-- Modelled from the spec: the status set §4.2 (and claim C2) maps to
`is_filled`. -/
def specFilledStatuses : List String := ["FILLED", "CLOSED"]

/-- Modelled from the spec: the status set §4.2 (and claim C2) maps to
`is_done` — note it contains `REJECTED`. -/
def specDoneStatuses : List String :=
  ["FILLED", "CLOSED", "CANCELED", "EXPIRED", "REJECTED"]

/-- Modelled from the spec: the symmetric activation test of §4.5 (and
claim C6) for a price `p` around `mid`; `none` bounds admit every price. -/
def specActivationEligible (ab : Option ℚ) (mid p : ℚ) : Prop :=
  match ab with
  | none => True
  | some b => |p - mid| / mid ≤ b

-- ======================================================================
-- Concrete inputs used by counterexamples and witnesses
-- ======================================================================

/-- A level whose open slot is empty while its close slot holds a
done-but-unfilled order (C1). -/
def c1FailedCloseLevel : GridLevel :=
  { id := "L0", price := 100, amount_quote := 10, side := .BUY,
    take_profit_pct := 1,
    active_open_order := none,
    active_close_order := some { is_done := true, is_filled := false },
    state := .NOT_ACTIVE }

/-- A level in the reachable shape: filled open order, done-but-unfilled
close order (C1 witness). -/
def c1WitnessLevel : GridLevel :=
  { id := "L1", price := 100, amount_quote := 10, side := .BUY,
    take_profit_pct := 1,
    active_open_order := some { order_id := some "o1", is_done := true,
                                is_filled := true },
    active_close_order := some { order_id := some "c1", is_done := true,
                                 is_filled := false },
    state := .CLOSE_ORDER_PLACED }

/-- A fresh tracked order (all fields at their model defaults), C2. -/
def c2Order : TrackedOrder := {}

/-- A terminally-done, filled tracked order with recorded fills (C3). -/
def c3DoneOrder : TrackedOrder :=
  { order_id := some "42", is_done := true, is_filled := true,
    executed_amount_base := 1, executed_amount_quote := 2,
    cum_fees_quote := 3 }

/-- A WebSocket payload reporting the order live again with new cumulative
fills, delivered as strings as on the Binance event stream (C3). -/
def c3NewData : OrderData := .ws "NEW" (.str 5) (.str 6) "" none

/-- A configuration with sound credentials and grid numbers but a negative
take-profit percentage (C9). -/
def c9NegTakeProfitConfig : GlobalConfig :=
  { account_a_api_key := "ka", account_a_api_secret := "sa",
    account_b_api_key := "kb", account_b_api_secret := "sb",
    start_price := 1, end_price := 2, total_amount_quote := 1000,
    max_open_orders := 5, take_profit_pct := -1 }

/-- Trading rules used by the C10 witness. -/
def c10Rules : TradingRule :=
  { min_price_increment := 1, min_base_amount_increment := 1,
    min_notional_size := 5, min_order_size := 1 }

/-- A long-grid configuration with `activation_bounds = 0` (C6). -/
def c6ZeroBoundsConfig : GridExecutorConfig :=
  { side := .BUY, start_price := 90, end_price := 110,
    total_amount_quote := 1000, max_open_orders := 5,
    min_spread_between_orders := 1, min_order_amount_quote := 5,
    order_frequency := 0, activation_bounds := some 0,
    safe_extra_spread := 1, take_profit_pct := 1 }

/-- The same configuration with `activation_bounds = 1/100` (C6). -/
def c6NarrowBoundsConfig : GridExecutorConfig :=
  { c6ZeroBoundsConfig with activation_bounds := some (1/100) }

/-- A NOT_ACTIVE level sitting exactly at mid-price 100 (C6). -/
def c6MidLevel : GridLevel :=
  { id := "L0", price := 100, amount_quote := 10, side := .BUY,
    take_profit_pct := 1 }

/-- A NOT_ACTIVE level at price 200, far above mid-price 100 (C6). -/
def c6FarLevel : GridLevel :=
  { id := "L1", price := 200, amount_quote := 10, side := .BUY,
    take_profit_pct := 1 }

/-- An open order with venue id `X` (C7). -/
def c7OpenOrder : TrackedOrder :=
  { order_id := some "X", price := 100, amount := 1 }

/-- A level whose open slot holds the live order `X` (C7). -/
def c7PlacedLevel : GridLevel :=
  { id := "L0", price := 100, amount_quote := 10, side := .BUY,
    take_profit_pct := 1, active_open_order := some c7OpenOrder,
    state := .OPEN_ORDER_PLACED }

/-- The rate-throttle scenario configuration (C5): `order_frequency = 30`,
capacity 5, no activation bounds. -/
def c5ThrottleConfig : GridExecutorConfig :=
  { side := .BUY, start_price := 248/1000, end_price := 280/1000,
    total_amount_quote := 1000, max_open_orders := 5,
    min_spread_between_orders := 5/10000, min_order_amount_quote := 5,
    order_frequency := 30, activation_bounds := none,
    safe_extra_spread := 1/10000, take_profit_pct := 1/1000 }

/-- A NOT_ACTIVE ladder level for the C5 scenario. -/
def c5GridLevel (i : String) (p : ℚ) : GridLevel :=
  { id := i, price := p, amount_quote := 10, side := .BUY,
    take_profit_pct := 1/1000 }

/-- Tick-0 state of the C5 scenario: two eligible levels, no placement
recorded yet. -/
def c5StartState : ExecState :=
  { levels := [c5GridLevel "L0" (26/100), c5GridLevel "L1" (27/100)],
    max_open_creation_timestamp := 0 }

/-- A state whose last open placement happened at time 1000 (C5). -/
def c5AfterTickState : ExecState :=
  { levels := [c5GridLevel "L0" (26/100), c5GridLevel "L1" (27/100)],
    max_open_creation_timestamp := 1000 }

/-- A configuration whose total budget (1) is far below the effective
per-level minimum quote of 21 (C8). -/
def c8SmallBudgetConfig : GridExecutorConfig :=
  { side := .BUY, start_price := 1, end_price := 2, total_amount_quote := 1,
    max_open_orders := 5, min_spread_between_orders := 1/2,
    min_order_amount_quote := 20, order_frequency := 0,
    activation_bounds := none, safe_extra_spread := 1/10000,
    take_profit_pct := 1/1000 }

/-- Trading rules for the C8 ladder examples. -/
def c8LadderRules : TradingRule :=
  { min_price_increment := 1/100, min_base_amount_increment := 1,
    min_notional_size := 20, min_order_size := 1 }

/-- A configuration whose budget (100) and range admit a multi-level
ladder (C8 witness). -/
def c8WideConfig : GridExecutorConfig :=
  { side := .BUY, start_price := 1, end_price := 2,
    total_amount_quote := 100, max_open_orders := 5,
    min_spread_between_orders := 1/10, min_order_amount_quote := 20,
    order_frequency := 0, activation_bounds := none,
    safe_extra_spread := 1/10000, take_profit_pct := 1/1000 }

/-- A two-level all-NOT_ACTIVE executor state (C4): capacity 1 with two
candidates exercises the per-placement recheck. -/
def c4TwoLevelState : ExecState :=
  { levels :=
      [{ id := "L0", price := 26, amount_quote := 10, side := .BUY,
         take_profit_pct := 1 },
       { id := "L1", price := 27, amount_quote := 10, side := .BUY,
         take_profit_pct := 1 }],
    max_open_creation_timestamp := 0 }

-- ======================================================================
-- Theorems
-- ======================================================================

/-- C2 (counterexample): the claim maps status `REJECTED` to `is_done`,
but `update_from_exchange_data` does not: updating a fresh order with a
REST payload of status `REJECTED` leaves `is_done = false`, even though
`REJECTED` is in the spec's done set. -/
theorem rejected_status_not_done :
    "REJECTED" ∈ specDoneStatuses ∧
    (c2Order.update_from_exchange_data
      (.rest "REJECTED" .absent .absent "" none)).is_done = false := by
  decide

/-- C2 (amended): for every order and either payload shape, the updated
`is_filled` is true iff the upper-cased status is in {FILLED, CLOSED}, and
the updated `is_done` is true iff it is in {FILLED, CLOSED, CANCELED,
EXPIRED} — `REJECTED` is not in the code's done set. -/
theorem update_from_exchange_data_status_sets (o : TrackedOrder)
    (d : OrderData) :
    (o.update_from_exchange_data d).is_filled
        = decide (d.statusOf ∈ filledStatuses) ∧
    (o.update_from_exchange_data d).is_done
        = decide (d.statusOf ∈ doneStatuses) :=
  ⟨rfl, rfl⟩

/-- C3 (counterexample): a tracked order that is already done and filled,
fed one further payload of status `NEW` with fresh cumulative amounts, has
its `is_done`, `is_filled` and executed amounts all changed — the update
is not ignored. -/
theorem done_order_update_not_ignored :
    c3DoneOrder.is_done = true ∧
    (c3DoneOrder.update_from_exchange_data c3NewData).is_done = false ∧
    (c3DoneOrder.update_from_exchange_data c3NewData).is_filled = false ∧
    (c3DoneOrder.update_from_exchange_data c3NewData).executed_amount_base
      = 5 := by
  decide

/-- C3 (amended): `update_from_exchange_data` enforces no monotonicity.
Even when `is_done` is already true, a further call overwrites `is_done`
and `is_filled` from the new payload's status alone, and overwrites each
cumulative executed amount whenever the corresponding payload field is
truthy (an absent key defaults to the truthy string `'0'` and stores `0`;
only a present falsy number such as float `0.0` keeps the stored amount).
Monotonicity in the running system relies on `update_all_order_status`
polling only non-done orders, which `update_grid_levels` does not do. -/
theorem update_from_exchange_data_overwrites_after_done (o : TrackedOrder)
    (d : OrderData) (_hdone : o.is_done = true) :
    (o.update_from_exchange_data d).is_done
        = decide (d.statusOf ∈ doneStatuses) ∧
    (o.update_from_exchange_data d).is_filled
        = decide (d.statusOf ∈ filledStatuses) ∧
    (o.update_from_exchange_data d).executed_amount_base
        = (if (d.filledQty).isTruthy then (d.filledQty).value
           else o.executed_amount_base) ∧
    (o.update_from_exchange_data d).executed_amount_quote
        = (if (d.filledQuote).isTruthy then (d.filledQuote).value
           else o.executed_amount_quote) :=
  ⟨rfl, rfl, rfl, rfl⟩

/-- C3 (witness): the amended theorem applied to the concrete done order
and the concrete string-typed `NEW` payload. -/
theorem update_from_exchange_data_overwrites_after_done_witness :
    (c3DoneOrder.update_from_exchange_data c3NewData).is_done
        = decide (c3NewData.statusOf ∈ doneStatuses) ∧
    (c3DoneOrder.update_from_exchange_data c3NewData).is_filled
        = decide (c3NewData.statusOf ∈ filledStatuses) ∧
    (c3DoneOrder.update_from_exchange_data c3NewData).executed_amount_base
        = (if (c3NewData.filledQty).isTruthy then (c3NewData.filledQty).value
           else c3DoneOrder.executed_amount_base) ∧
    (c3DoneOrder.update_from_exchange_data c3NewData).executed_amount_quote
        = (if (c3NewData.filledQuote).isTruthy
           then (c3NewData.filledQuote).value
           else c3DoneOrder.executed_amount_quote) :=
  update_from_exchange_data_overwrites_after_done c3DoneOrder c3NewData
    (by decide)

/-- C9 (counterexample): a configuration with valid credentials and grid
bounds but `take_profit_pct = −1 ≤ 0` passes `validate_config` — the
take-profit field is never inspected, so such a configuration is not
refused before start. -/
theorem validate_config_accepts_nonpositive_take_profit :
    c9NegTakeProfitConfig.take_profit_pct ≤ 0 ∧
    validate_config c9NegTakeProfitConfig = true := by
  constructor
  · norm_num [c9NegTakeProfitConfig]
  · decide

/-- C9 (amended): `validate_config` accepts exactly the configurations
with non-empty credentials for both accounts, `start_price < end_price`,
positive `total_amount_quote` and positive `max_open_orders`; the result
does not depend on `take_profit_pct`, so no `take_profit_pct ≤ 0`
configuration is rejected on that ground. -/
theorem validate_config_characterization (c : GlobalConfig) :
    (validate_config c = true ↔
      (c.account_a_api_key ≠ "" ∧ c.account_a_api_secret ≠ "" ∧
       c.account_b_api_key ≠ "" ∧ c.account_b_api_secret ≠ "" ∧
       c.start_price < c.end_price ∧ 0 < c.total_amount_quote ∧
       0 < c.max_open_orders)) ∧
    (∀ tp, validate_config { c with take_profit_pct := tp }
        = validate_config c) := by
  refine ⟨?_, fun tp => rfl⟩
  simp [validate_config, not_le, and_assoc]

/-- C10: the pre-venue checks of `place_order` for a limit order: the
submitted amount is never below `min_order_size`; an amount whose downward
quantization falls short of `min_order_size` is raised to exactly
`min_order_size`; and the order is rejected before reaching the venue
exactly when the (quantized, possibly raised) amount times the quantized
price is below `min_notional_size`. -/
theorem place_order_min_size_and_notional (rules : TradingRule)
    (amount price : ℚ) :
    (∀ a, place_order_preVenue rules amount price = some a →
        rules.min_order_size ≤ a ∧
        (quantize_amount rules.min_base_amount_increment amount
            < rules.min_order_size → a = rules.min_order_size)) ∧
    (place_order_preVenue rules amount price = none ↔
      (let p := quantize_price rules.min_price_increment price
       let a1 := quantize_amount rules.min_base_amount_increment amount
       let a2 := if a1 < rules.min_order_size then rules.min_order_size
                 else a1
       a2 * p < rules.min_notional_size)) := by
  unfold place_order_preVenue
  set p := quantize_price rules.min_price_increment price with hp
  set a1 := quantize_amount rules.min_base_amount_increment amount with ha1
  by_cases hsmall : a1 < rules.min_order_size
  · simp only [if_pos hsmall]
    by_cases hnot : rules.min_order_size * p < rules.min_notional_size
    · simp [if_pos hnot, hnot]
    · simp [if_neg hnot, hnot]
  · simp only [if_neg hsmall]
    by_cases hnot : a1 * p < rules.min_notional_size
    · simp [if_pos hnot, hnot]
    · simp only [if_neg hnot, hnot, iff_false]
      refine ⟨fun a ha => ?_, by simp⟩
      obtain rfl : a1 = a := by simpa using ha
      exact ⟨le_of_not_lt hsmall, fun hc => absurd hc hsmall⟩

/-- C10 (witness): the theorem applied at a concrete rule set and order:
increment 1, `min_order_size` 1, `min_notional_size` 5, amount 1/2
(quantizes to 0, is raised to 1), price 10 — the order is submitted with
amount exactly 1. -/
theorem place_order_min_size_and_notional_witness :
    (∀ a, place_order_preVenue c10Rules (1/2) 10 = some a →
        c10Rules.min_order_size ≤ a ∧
        (quantize_amount c10Rules.min_base_amount_increment (1/2)
            < c10Rules.min_order_size → a = c10Rules.min_order_size)) ∧
    (place_order_preVenue c10Rules (1/2) 10 = none ↔
      (let p := quantize_price c10Rules.min_price_increment 10
       let a1 := quantize_amount c10Rules.min_base_amount_increment (1/2)
       let a2 := if a1 < c10Rules.min_order_size then c10Rules.min_order_size
                 else a1
       a2 * p < c10Rules.min_notional_size)) :=
  place_order_min_size_and_notional c10Rules (1/2) 10

/-- C6 (counterexample): with `activation_bounds = 0`, a NOT_ACTIVE level
at mid-price *is* kept eligible (the Python truthiness guard treats
`Decimal("0")` like `None`), contradicting the claim that no level is ever
eligible; and with `activation_bounds = 1/100` on a long grid, a level at
price 200 against mid 100 stays eligible although it fails the claim's
symmetric test — the code's test is one-sided. -/
theorem activation_bounds_filter_not_symmetric :
    (c6MidLevel ∈
      filterLevelsByActivationBounds c6ZeroBoundsConfig 100 [c6MidLevel]) ∧
    (c6FarLevel ∈
      filterLevelsByActivationBounds c6NarrowBoundsConfig 100 [c6FarLevel]) ∧
    ¬ specActivationEligible c6NarrowBoundsConfig.activation_bounds 100
        c6FarLevel.price := by
  refine ⟨by decide, ?_, ?_⟩
  · norm_num [filterLevelsByActivationBounds, c6NarrowBoundsConfig,
      c6ZeroBoundsConfig, c6FarLevel]
  · norm_num [specActivationEligible, c6NarrowBoundsConfig,
      c6ZeroBoundsConfig, c6FarLevel, abs]

/-- C6 (amended): eligibility of a level in
`_filter_levels_by_activation_bounds` is: when `activation_bounds` is
`None` *or zero* every level of the NOT_ACTIVE bucket is eligible;
otherwise the test is one-sided, keeping `price ≥ mid × (1 − b)` for a
long grid and `price ≤ mid × (1 + b)` for a short grid. -/
theorem filterLevelsByActivationBounds_mem (cfg : GridExecutorConfig)
    (mid : ℚ) (ls : List GridLevel) (l : GridLevel) :
    l ∈ filterLevelsByActivationBounds cfg mid ls ↔
      l ∈ ls ∧
      (cfg.activation_bounds = none ∨ cfg.activation_bounds = some 0 ∨
        ∃ b, cfg.activation_bounds = some b ∧ b ≠ 0 ∧
          ((cfg.side = .BUY ∧ mid * (1 - b) ≤ l.price) ∨
           (cfg.side = .SELL ∧ l.price ≤ mid * (1 + b)))) := by
  unfold filterLevelsByActivationBounds
  cases hab : cfg.activation_bounds with
  | none => simp
  | some b =>
    by_cases hb : b = 0
    · subst hb
      simp
    · cases hside : cfg.side with
      | BUY => simp [hside, hb, List.mem_filter]
      | SELL => simp [hside, hb, List.mem_filter]

/-- C7 (counterexample): a successful cancel of open order `X` clears the
owning level's open slot in the same step — the slot does not stay
unchanged until a later refresh observes the terminal status. -/
theorem cancel_clears_slot_immediately :
    (cancelOrderStep true "X" [c7PlacedLevel]).map GridLevel.active_open_order
      = [none] ∧
    c7PlacedLevel.active_open_order ≠ none := by
  decide

/-- C7 (amended): a failed cancel leaves every level unchanged, but a
successful cancel immediately resets the first matching slot:
`reset_open_order` (open slot cleared, state NOT_ACTIVE) when the id sits
in the open slot, else `reset_close_order` (close slot cleared, state
OPEN_ORDER_FILLED) when it sits in the close slot. -/
theorem cancel_order_slot_behavior (oid : String) (l : GridLevel)
    (rest : List GridLevel) :
    (cancelOrderStep false oid (l :: rest) = l :: rest) ∧
    (openIdMatches oid l = true →
      cancelOrderStep true oid (l :: rest) = l.reset_open_order :: rest) ∧
    (openIdMatches oid l = false → closeIdMatches oid l = true →
      cancelOrderStep true oid (l :: rest) = l.reset_close_order :: rest) := by
  refine ⟨rfl, fun h => ?_, fun h1 h2 => ?_⟩
  · simp [cancelOrderStep, cancelOrderUpdate, h]
  · simp [cancelOrderStep, cancelOrderUpdate, h1, h2]

/-- C7 (witness): the amended theorem applied to the one-level grid whose
open slot holds order `X`. -/
theorem cancel_order_slot_behavior_witness :
    cancelOrderStep true "X" [c7PlacedLevel]
      = c7PlacedLevel.reset_open_order :: [] :=
  (cancel_order_slot_behavior "X" c7PlacedLevel []).2.1 (by decide)

/-- Counting OPEN_ORDER_PLACED levels distributes over cons. -/
theorem countOpenPlaced_cons (x : GridLevel) (t : List GridLevel) :
    countOpenPlaced (x :: t)
      = (if x.state = .OPEN_ORDER_PLACED then 1 else 0) + countOpenPlaced t := by
  by_cases h : x.state = .OPEN_ORDER_PLACED <;>
    simp [countOpenPlaced, List.filter_cons, h, Nat.add_comm]

/-- Replacing one element changes the OPEN_ORDER_PLACED count by at most
one upward. -/
theorem countOpenPlaced_set_le (ls : List GridLevel) (i : ℕ) (v : GridLevel) :
    countOpenPlaced (ls.set i v) ≤ countOpenPlaced ls + 1 := by
  induction ls generalizing i with
  | nil => simp [countOpenPlaced]
  | cons a t ih =>
    cases i with
    | zero =>
      rw [List.set_cons_zero, countOpenPlaced_cons, countOpenPlaced_cons]
      split_ifs <;> omega
    | succ n =>
      rw [List.set_cons_succ, countOpenPlaced_cons, countOpenPlaced_cons]
      have := ih n
      split_ifs <;> omega

/-- One placement attempt raises the OPEN_ORDER_PLACED count by at most
one. -/
theorem countOpenPlaced_placeOpenOrderAt_le (oid : String) (i : ℕ) (now : ℚ)
    (s : ExecState) :
    countOpenPlaced (placeOpenOrderAt oid i now s).levels
      ≤ countOpenPlaced s.levels + 1 := by
  unfold placeOpenOrderAt
  cases h : s.levels.get? i with
  | none => simp
  | some l => simpa using countOpenPlaced_set_le s.levels i (placedOpenLevel oid l)

/-- C4: the placement loop of `control_task` recounts the
OPEN_ORDER_PLACED levels before every placement and stops at the cap, so
for any candidate list a tick that starts within the cap ends within the
cap — placements earlier in the tick cannot push the count past
`max_open_orders`. -/
theorem placeOpenLoop_capacity (maxOpen : ℕ) (now : ℚ) (ok : ℕ → Bool)
    (oids : ℕ → String) (cand : List ℕ) (k : ℕ) (s : ExecState)
    (h : countOpenPlaced s.levels ≤ maxOpen) :
    countOpenPlaced (placeOpenLoop maxOpen now ok oids cand k s).levels
      ≤ maxOpen := by
  induction cand generalizing k s with
  | nil => simpa [placeOpenLoop] using h
  | cons i rest ih =>
    rw [placeOpenLoop]
    by_cases hcap : maxOpen ≤ countOpenPlaced s.levels
    · simpa [hcap] using h
    · rw [if_neg hcap]
      apply ih
      by_cases hok : ok k
      · rw [if_pos hok]
        have h1 := countOpenPlaced_placeOpenOrderAt_le (oids k) i now s
        omega
      · rw [if_neg hok]
        omega

/-- C4 (witness): capacity 1, two fresh candidate levels, all placements
accepted — after the loop at most one level is OPEN_ORDER_PLACED. -/
theorem placeOpenLoop_capacity_witness :
    countOpenPlaced (placeOpenLoop 1 1000 (fun _ => true) (fun _ => "w")
      [0, 1] 0 c4TwoLevelState).levels ≤ 1 :=
  placeOpenLoop_capacity 1 1000 (fun _ => true) (fun _ => "w") [0, 1] 0
    c4TwoLevelState (by decide)

/-- C1 (counterexample): on a level whose open slot is empty while the
close slot holds a done-but-unfilled order, one run of the
`update_grid_levels` pass ends with `state = OPEN_ORDER_FILLED` although
both slots are empty, so the state does not equal the §4.3 table applied
to the slots (`_handle_failed_orders` resets the close slot last and
unconditionally forces OPEN_ORDER_FILLED). -/
theorem updateGridLevels_state_table_mismatch :
    (updateGridLevelsStep c1FailedCloseLevel).state ≠
      specStateTable (updateGridLevelsStep c1FailedCloseLevel).active_open_order
        (updateGridLevelsStep c1FailedCloseLevel).active_close_order := by
  decide

/-- C1 (amended): after one run of the `update_grid_levels` pass the
level's state equals the §4.3 table applied to its (possibly cleared)
slots, provided any done-but-unfilled close order sits next to a done and
filled open order — the only shape the executor itself produces, since
close orders are placed only for filled opens.  (`GridLevel.update_state`
alone always matches the table; the exception arises from
`_handle_failed_orders`, as the counterexample shows.) -/
theorem updateGridLevels_state_matches_table (l : GridLevel)
    (h : slotFailed l.active_close_order = true →
         slotDoneFilled l.active_open_order = true) :
    (updateGridLevelsStep l).state =
      specStateTable (updateGridLevelsStep l).active_open_order
        (updateGridLevelsStep l).active_close_order := by
  obtain ⟨lid, lp, lq, lside, ltp, oo, co, lst⟩ := l
  rcases oo with _ | ⟨oid, ocid, op, oa, odone, ofill, oeb, oeq, ofee, oraw⟩ <;>
    rcases co with _ | ⟨cid, ccid, cp, ca, cdone, cfill, ceb, ceq, cfee, craw⟩
  · simp [updateGridLevelsStep, GridLevel.update_state, completeResetStep,
      handleFailedStep, slotFilled, slotFailed, specStateTable,
      GridLevel.reset_level, GridLevel.reset_open_order,
      GridLevel.reset_close_order]
  · cases cdone <;> cases cfill <;>
      simp_all [updateGridLevelsStep, GridLevel.update_state, completeResetStep,
        handleFailedStep, slotFilled, slotFailed, slotDoneFilled, specStateTable,
        GridLevel.reset_level, GridLevel.reset_open_order,
        GridLevel.reset_close_order]
  · cases odone <;> cases ofill <;>
      simp_all [updateGridLevelsStep, GridLevel.update_state, completeResetStep,
        handleFailedStep, slotFilled, slotFailed, slotDoneFilled, specStateTable,
        GridLevel.reset_level, GridLevel.reset_open_order,
        GridLevel.reset_close_order]
  · cases odone <;> cases ofill <;> cases cdone <;> cases cfill <;>
      simp_all [updateGridLevelsStep, GridLevel.update_state, completeResetStep,
        handleFailedStep, slotFilled, slotFailed, slotDoneFilled, specStateTable,
        GridLevel.reset_level, GridLevel.reset_open_order,
        GridLevel.reset_close_order]

/-- C1 (witness): the amended theorem applied to the reachable shape of a
filled open order with a failed (done-but-unfilled) close order. -/
theorem updateGridLevels_state_matches_table_witness :
    (updateGridLevelsStep c1WitnessLevel).state =
      specStateTable (updateGridLevelsStep c1WitnessLevel).active_open_order
        (updateGridLevelsStep c1WitnessLevel).active_close_order :=
  updateGridLevels_state_matches_table c1WitnessLevel (by decide)

/-- C5 (counterexample): in the rate-throttle scenario (`order_frequency
= 30`, capacity available, no prior placement) tick 0 places *two* open
orders, not exactly one — the throttle gate is evaluated once per tick,
before the placement loop, and does not limit a tick to a single order. -/
theorem tick_zero_places_more_than_one :
    countOpenPlaced (tickOpenPlacements c5ThrottleConfig 1000 (264/1000)
      (fun _ => true) (fun k => toString k) c5StartState).levels = 2 := by
  norm_num +decide [tickOpenPlacements, openOrdersToCreate, countOpenPlaced,
    c5StartState, c5ThrottleConfig, c5GridLevel, sortAscBy, insertAscBy,
    placeOpenLoop, placeOpenOrderAt, placedOpenLevel,
    filterLevelsByActivationBounds, List.filter, List.range, List.range.loop,
    List.foldl, List.get?, List.take, List.set, abs]

/-- C5 (amended): the throttle suppresses a whole tick: when the last open
placement lies strictly within `order_frequency` seconds of the current
time, `get_open_orders_to_create` returns no candidates and the tick
leaves the executor state unchanged (so in the scenario ticks 1–29 place
nothing and tick 30 may place again); a non-suppressed tick, however,
places up to its full capacity-bounded candidate list, not at most one
order. -/
theorem tick_suppressed_within_cooldown (cfg : GridExecutorConfig)
    (now mid : ℚ) (ok : ℕ → Bool) (oids : ℕ → String) (s : ExecState)
    (h : now - cfg.order_frequency < s.max_open_creation_timestamp) :
    tickOpenPlacements cfg now mid ok oids s = s := by
  unfold tickOpenPlacements
  have hempty : openOrdersToCreate cfg now mid s = [] := by
    simp only [openOrdersToCreate]
    rw [if_pos (Or.inl h)]
  rw [hempty]
  rfl

/-- C5 (witness): with the last placement at time 1000 and
`order_frequency = 30`, the tick at time 1005 changes nothing. -/
theorem tick_suppressed_within_cooldown_witness :
    tickOpenPlacements c5ThrottleConfig 1005 (264/1000) (fun _ => true)
      (fun k => toString k) c5AfterTickState = c5AfterTickState :=
  tick_suppressed_within_cooldown c5ThrottleConfig 1005 (264/1000)
    (fun _ => true) (fun k => toString k) c5AfterTickState
    (by norm_num [c5ThrottleConfig, c5AfterTickState])

/-- Python `int()` agrees with the floor on nonnegative arguments. -/
theorem pyInt_eq_floor (x : ℚ) (h : 0 ≤ x) : pyInt x = ⌊x⌋ := by
  simp [pyInt, pyTrunc, h]

/-- `int(x) ≥ 1` once `x ≥ 1`. -/
theorem one_le_pyInt (x : ℚ) (h : 1 ≤ x) : 1 ≤ pyInt x := by
  rw [pyInt_eq_floor x (le_trans zero_le_one h)]
  exact Int.le_floor.mpr (by exact_mod_cast h)

/-- The ceiling-quantized per-level base floor is at least one increment. -/
theorem inc_le_ladderMinBaseAmount (cfg : GridExecutorConfig)
    (rules : TradingRule) (price : ℚ) (hp : 0 < price)
    (hinc : 0 < rules.min_base_amount_increment)
    (hmn : 0 < max cfg.min_order_amount_quote rules.min_notional_size) :
    rules.min_base_amount_increment ≤ ladderMinBaseAmount cfg rules price := by
  unfold ladderMinBaseAmount
  have hmb0 : 0 < max cfg.min_order_amount_quote rules.min_notional_size
      * (105/100) / price := div_pos (mul_pos hmn (by norm_num)) hp
  have hmax : 0 < max (max cfg.min_order_amount_quote rules.min_notional_size
      * (105/100) / price)
      (rules.min_base_amount_increment *
        (⌈max cfg.min_order_amount_quote rules.min_notional_size /
          (rules.min_base_amount_increment * price)⌉ : ℚ)) :=
    lt_of_lt_of_le hmb0 (le_max_left _ _)
  have hceil : (1 : ℤ) ≤ ⌈max (max cfg.min_order_amount_quote
      rules.min_notional_size * (105/100) / price)
      (rules.min_base_amount_increment *
        (⌈max cfg.min_order_amount_quote rules.min_notional_size /
          (rules.min_base_amount_increment * price)⌉ : ℚ))
      / rules.min_base_amount_increment⌉ :=
    Int.ceil_pos.mpr (div_pos hmax hinc)
  calc rules.min_base_amount_increment
      = 1 * rules.min_base_amount_increment := (one_mul _).symm
    _ ≤ _ := by
        apply mul_le_mul_of_nonneg_right _ hinc.le
        exact_mod_cast hceil

/-- The effective per-level quote minimum is positive. -/
theorem ladderMinQuoteAmount_pos (cfg : GridExecutorConfig)
    (rules : TradingRule) (price : ℚ) (hp : 0 < price)
    (hinc : 0 < rules.min_base_amount_increment)
    (hmn : 0 < max cfg.min_order_amount_quote rules.min_notional_size) :
    0 < ladderMinQuoteAmount cfg rules price :=
  mul_pos (lt_of_lt_of_le hinc (inc_le_ladderMinBaseAmount cfg rules price
    hp hinc hmn)) hp

/-- Under a valid configuration whose budget admits at least one level and
whose range admits at least one step, `ladderCore` succeeds with a level
count of at least 1, a positive shared per-level quote, and a total within
budget. -/
theorem ladderCore_valid (cfg : GridExecutorConfig) (rules : TradingRule)
    (price : ℚ) (hp : 0 < price)
    (hinc : 0 < rules.min_base_amount_increment)
    (hmn : 0 < max cfg.min_order_amount_quote rules.min_notional_size)
    (ht : 0 < cfg.total_amount_quote)
    (hq : ladderMinQuoteAmount cfg rules price ≤ cfg.total_amount_quote)
    (hstep0 : 0 < ladderMinStep cfg rules price)
    (hstep : ladderMinStep cfg rules price ≤ ladderGridRange cfg) :
    ∃ n q, ladderCore cfg rules price = some (n, q) ∧ 1 ≤ n ∧ 0 < q ∧
      q * (n : ℚ) ≤ cfg.total_amount_quote := by
  have hminQ : 0 < ladderMinQuoteAmount cfg rules price :=
    ladderMinQuoteAmount_pos cfg rules price hp hinc hmn
  have hmp : 1 ≤ pyInt (cfg.total_amount_quote /
      ladderMinQuoteAmount cfg rules price) :=
    one_le_pyInt _ ((one_le_div hminQ).mpr hq)
  have hms : 1 ≤ pyInt (ladderGridRange cfg / ladderMinStep cfg rules price) :=
    one_le_pyInt _ ((one_le_div hstep0).mpr hstep)
  set mp := pyInt (cfg.total_amount_quote /
      ladderMinQuoteAmount cfg rules price) with hmpdef
  set ms := pyInt (ladderGridRange cfg / ladderMinStep cfg rules price)
    with hmsdef
  set n1 := min mp ms with hn1def
  have hn1 : 1 ≤ n1 := le_min hmp hms
  set bq := (⌊cfg.total_amount_quote / (price * (n1 : ℚ)) /
      rules.min_base_amount_increment⌋ : ℚ)
      * rules.min_base_amount_increment with hbqdef
  set basePer := max (ladderMinBaseAmount cfg rules price) bq with hbasedef
  set q := basePer * price with hqdef
  have hn1Q : (1 : ℚ) ≤ (n1 : ℚ) := by exact_mod_cast hn1
  have hqle : q ≤ cfg.total_amount_quote := by
    rw [hqdef, hbasedef, max_mul_of_nonneg _ _ hp.le]
    apply max_le
    · exact hq
    · rw [hbqdef]
      have h1 : (⌊cfg.total_amount_quote / (price * (n1 : ℚ)) /
          rules.min_base_amount_increment⌋ : ℚ)
          * rules.min_base_amount_increment
          ≤ cfg.total_amount_quote / (price * (n1 : ℚ)) := by
        calc (⌊cfg.total_amount_quote / (price * (n1 : ℚ)) /
              rules.min_base_amount_increment⌋ : ℚ)
              * rules.min_base_amount_increment
            ≤ cfg.total_amount_quote / (price * (n1 : ℚ)) /
              rules.min_base_amount_increment
              * rules.min_base_amount_increment :=
              mul_le_mul_of_nonneg_right (Int.floor_le _) hinc.le
          _ = cfg.total_amount_quote / (price * (n1 : ℚ)) :=
              div_mul_cancel₀ _ hinc.ne'
      calc (⌊cfg.total_amount_quote / (price * (n1 : ℚ)) /
            rules.min_base_amount_increment⌋ : ℚ)
            * rules.min_base_amount_increment * price
          ≤ cfg.total_amount_quote / (price * (n1 : ℚ)) * price :=
            mul_le_mul_of_nonneg_right h1 hp.le
        _ = cfg.total_amount_quote / (n1 : ℚ) := by
            field_simp
            ring
        _ ≤ cfg.total_amount_quote := by
            apply div_le_self ht.le hn1Q
  have hqpos : 0 < q := by
    rw [hqdef, hbasedef]
    apply mul_pos _ hp
    exact lt_of_lt_of_le
      (lt_of_lt_of_le hinc (inc_le_ladderMinBaseAmount cfg rules price hp hinc hmn))
      (le_max_left _ _)
  have hn2r : 1 ≤ pyInt (cfg.total_amount_quote / q) :=
    one_le_pyInt _ ((one_le_div hqpos).mpr hqle)
  set n2 := min n1 (pyInt (cfg.total_amount_quote / q)) with hn2def
  have hn2 : 1 ≤ n2 := le_min hn1 hn2r
  have hmax : max 1 n2 = n2 := max_eq_right hn2
  have hbound : q * ((n2 : ℤ) : ℚ) ≤ cfg.total_amount_quote := by
    have h0 : n2 ≤ pyInt (cfg.total_amount_quote / q) := min_le_right _ _
    have h1 : n2 ≤ ⌊cfg.total_amount_quote / q⌋ := by
      rwa [pyInt_eq_floor _ (le_trans zero_le_one
        ((one_le_div hqpos).mpr hqle))] at h0
    have h2 : ((n2 : ℤ) : ℚ) ≤ cfg.total_amount_quote / q :=
      le_trans (by exact_mod_cast h1) (Int.floor_le _)
    calc q * ((n2 : ℤ) : ℚ) ≤ q * (cfg.total_amount_quote / q) :=
          mul_le_mul_of_nonneg_left h2 hqpos.le
      _ = cfg.total_amount_quote := mul_div_cancel₀ _ hqpos.ne'
  refine ⟨max 1 n2, q, ?_, ?_, hqpos, ?_⟩
  · simp only [ladderCore]
    rw [if_neg (by omega : ¬ mp = 0), if_neg (by omega : ¬ n1 = 0)]
  · omega
  · rw [hmax]
    exact hbound

/-- A built ladder has exactly `n.toNat` levels (for `n ≥ 1`). -/
theorem buildLadder_length (cfg : GridExecutorConfig) (n : ℤ) (q : ℚ)
    (h : 1 ≤ n) : (buildLadder cfg n q).levels.length = n.toNat := by
  unfold buildLadder
  by_cases h1 : 1 < n
  · rw [if_pos h1]
    unfold linear_distribution
    rw [if_neg (by omega : ¬ n.toNat = 1)]
    rw [List.length_map, List.enum_length, List.length_map, List.length_range]
  · have hn : n = 1 := by omega
    subst hn
    simp

/-- Every level of a built ladder carries the shared per-level quote. -/
theorem buildLadder_amount (cfg : GridExecutorConfig) (n : ℤ) (q : ℚ)
    (l : GridLevel) (h : l ∈ (buildLadder cfg n q).levels) :
    l.amount_quote = q := by
  unfold buildLadder at h
  simp only [List.mem_map] at h
  obtain ⟨ip, _, rfl⟩ := h
  rfl

/-- The price column of a built ladder is exactly the computed price
list. -/
theorem buildLadder_prices (cfg : GridExecutorConfig) (n : ℤ) (q : ℚ) :
    (buildLadder cfg n q).levels.map GridLevel.price =
      (if 1 < n then
        linear_distribution n.toNat cfg.start_price cfg.end_price
       else [(cfg.start_price + cfg.end_price) / 2]) := by
  unfold buildLadder
  simp only [List.map_map]
  have : (GridLevel.price ∘ fun ip : ℕ × ℚ =>
      ({ id := "L" ++ toString ip.1, price := ip.2, amount_quote := q,
         side := cfg.side, take_profit_pct := cfg.take_profit_pct } :
        GridLevel)) = Prod.snd := rfl
  rw [this, List.enum_map_snd]

/-- C8 (counterexample): with budget 1 against an effective per-level
minimum of 21 (rules: increment 1, `min_notional` 20, mid-price 1), the
ladder builder returns a single level of `amount_quote = 21`, and
`21 × 1 ≤ 1 × 1.05` fails — the claimed budget bound does not hold for
every valid configuration. -/
theorem ladder_single_level_overshoots_budget :
    (generate_grid_levels c8SmallBudgetConfig c8LadderRules 1).map
        (fun r => (r.levels.length, r.levels.map GridLevel.amount_quote))
      = some (1, [21]) ∧
    ¬ ((21 : ℚ) * 1 ≤ c8SmallBudgetConfig.total_amount_quote * (105/100)) := by
  have hmb : ladderMinBaseAmount c8SmallBudgetConfig c8LadderRules 1 = 21 := by
    simp only [ladderMinBaseAmount, c8SmallBudgetConfig, c8LadderRules]
    norm_num
  have hmq : ladderMinQuoteAmount c8SmallBudgetConfig c8LadderRules 1 = 21 := by
    rw [ladderMinQuoteAmount, hmb]
    norm_num
  have hfl : pyInt (c8SmallBudgetConfig.total_amount_quote /
      ladderMinQuoteAmount c8SmallBudgetConfig c8LadderRules 1) = 0 := by
    rw [hmq, pyInt_eq_floor _ (by norm_num [c8SmallBudgetConfig])]
    rw [Int.floor_eq_iff]
    norm_num [c8SmallBudgetConfig]
  have hcore : ladderCore c8SmallBudgetConfig c8LadderRules 1
      = some (1, 21) := by
    simp only [ladderCore]
    rw [if_pos hfl, hmq]
  constructor
  · unfold generate_grid_levels
    rw [if_neg (by norm_num), hcore]
    simp [buildLadder, List.enum]
  · norm_num [c8SmallBudgetConfig]

/-- C8 (amended): for a valid configuration whose budget covers the
effective per-level minimum (`Q_min ≤ total_amount_quote`, i.e. N_cap ≥ 1)
and whose range covers one minimum step (`s ≤ R`, i.e. N_step ≥ 1), the
ladder builder returns N ≥ 1 levels sharing one `amount_quote` with
`amount_quote × N ≤ total_amount_quote ≤ total_amount_quote × 1.05`, the
lone level priced at the midpoint when N = 1, and linear spacing with step
`(end − start)/(N − 1)` when N > 1.  (When `total < Q_min` the builder
returns one level of `amount_quote = Q_min`, which can exceed the 1.05
budget — the counterexample; when N_cap ≥ 1 but N_step = 0 it raises a
division-by-zero instead of returning a ladder.) -/
theorem generate_grid_levels_valid (cfg : GridExecutorConfig)
    (rules : TradingRule) (price : ℚ) (hp : 0 < price)
    (hinc : 0 < rules.min_base_amount_increment)
    (hmn : 0 < max cfg.min_order_amount_quote rules.min_notional_size)
    (ht : 0 < cfg.total_amount_quote)
    (hq : ladderMinQuoteAmount cfg rules price ≤ cfg.total_amount_quote)
    (hstep0 : 0 < ladderMinStep cfg rules price)
    (hstep : ladderMinStep cfg rules price ≤ ladderGridRange cfg) :
    ∃ r q, generate_grid_levels cfg rules price = some r ∧
      1 ≤ r.levels.length ∧
      (∀ l ∈ r.levels, l.amount_quote = q) ∧
      q * (r.levels.length : ℚ) ≤ cfg.total_amount_quote * (105/100) ∧
      (r.levels.length = 1 →
        r.levels.map GridLevel.price
          = [(cfg.start_price + cfg.end_price) / 2]) ∧
      (1 < r.levels.length →
        r.levels.map GridLevel.price
          = (List.range r.levels.length).map fun i : ℕ =>
              cfg.start_price + (i : ℚ) *
                ((cfg.end_price - cfg.start_price) /
                  ((r.levels.length : ℚ) - 1))) := by
  obtain ⟨n, q, hcore, hn, hqpos, hbound⟩ :=
    ladderCore_valid cfg rules price hp hinc hmn ht hq hstep0 hstep
  have hlen : (buildLadder cfg n q).levels.length = n.toNat :=
    buildLadder_length cfg n q hn
  have hcast : ((n.toNat : ℕ) : ℚ) = ((n : ℤ) : ℚ) := by
    exact_mod_cast congrArg (fun z : ℤ => (z : ℚ)) (Int.toNat_of_nonneg (by omega))
  refine ⟨buildLadder cfg n q, q, ?_, ?_, ?_, ?_, ?_, ?_⟩
  · unfold generate_grid_levels
    rw [if_neg (not_le.mpr hp), hcore]
  · rw [hlen]
    omega
  · exact fun l hl => buildLadder_amount cfg n q l hl
  · rw [hlen, hcast]
    calc q * ((n : ℤ) : ℚ) ≤ cfg.total_amount_quote := hbound
      _ ≤ cfg.total_amount_quote * (105/100) :=
        le_mul_of_one_le_right ht.le (by norm_num)
  · intro h1
    rw [hlen] at h1
    have hn1 : n = 1 := by omega
    rw [buildLadder_prices, if_neg (by omega : ¬ 1 < n)]
  · intro h1
    rw [hlen] at h1
    have hn1 : 1 < n := by omega
    rw [buildLadder_prices, if_pos hn1, hlen]
    unfold linear_distribution
    rw [if_neg (by omega : ¬ n.toNat = 1)]

/-- C8 (witness): the amended theorem at the concrete configuration with
budget 100, per-level minimum 21, range [1, 2], step cap 1/10, mid-price
1. -/
theorem generate_grid_levels_valid_witness :
    ∃ r q, generate_grid_levels c8WideConfig c8LadderRules 1 = some r ∧
      1 ≤ r.levels.length ∧
      (∀ l ∈ r.levels, l.amount_quote = q) ∧
      q * (r.levels.length : ℚ)
        ≤ c8WideConfig.total_amount_quote * (105/100) ∧
      (r.levels.length = 1 →
        r.levels.map GridLevel.price
          = [(c8WideConfig.start_price + c8WideConfig.end_price) / 2]) ∧
      (1 < r.levels.length →
        r.levels.map GridLevel.price
          = (List.range r.levels.length).map fun i : ℕ =>
              c8WideConfig.start_price + (i : ℚ) *
                ((c8WideConfig.end_price - c8WideConfig.start_price) /
                  ((r.levels.length : ℚ) - 1))) :=
  generate_grid_levels_valid c8WideConfig c8LadderRules 1
    (by norm_num)
    (by norm_num [c8LadderRules])
    (by norm_num [c8WideConfig, c8LadderRules])
    (by norm_num [c8WideConfig])
    (by
      have hmb : ladderMinBaseAmount c8WideConfig c8LadderRules 1 = 21 := by
        simp only [ladderMinBaseAmount, c8WideConfig, c8LadderRules]
        norm_num
      rw [ladderMinQuoteAmount, hmb]
      norm_num [c8WideConfig])
    (by norm_num [ladderMinStep, c8WideConfig, c8LadderRules])
    (by norm_num [ladderMinStep, ladderGridRange, c8WideConfig,
      c8LadderRules])

end GirdBot
